import Mathlib

/-!
Verification of the orchestration core of the `compliance_copilot_mcp_server`
repository (Python), as a shallow embedding in Lean 4.

Python strings are modelled as lists of Unicode code points (`List Nat`);
all string operations used by the code (`str.strip`, `str.lower`,
`str.upper`, `str.replace(" ", "")`, `str.isdigit`, `str.isalpha`) are
modelled at the ASCII level, which covers every input any claim touches.
Python's dynamically typed values are modelled by the inductive `PyVal`,
and code that can raise returns `Except` with the exception's class name
as the error message.

Sources embedded here:
 - `src/services/mcp_server/orchestrator.py` (`_normalize_query`,
   `cache_get`, `cache_set`, `orchestrator_get_company_profile`),
 - `src/core/scoring.py` (`compute_risk`),
 - `src/services/mcp_server/utils/security.py` (`redact_pii`).
-/

namespace ComplianceCopilot

/-- Python strings as lists of code points. -/
abbrev PyStr := List Nat

/-- Code points of a Lean string literal (used to write concrete Python strings). -/
def pys (s : String) : PyStr := s.toList.map Char.toNat

/-- Python `str.isspace` on one ASCII character: space, tab, LF, VT, FF, CR.
These are the characters `str.strip()` removes at the ends. -/
def isSpaceNat (c : Nat) : Bool := decide (c = 32 ∨ c = 9 ∨ c = 10 ∨ c = 13 ∨ c = 11 ∨ c = 12)

/-- ASCII decimal digit, as tested by `str.isdigit` and the regex class `\d`. -/
def isDigitNat (c : Nat) : Bool := decide (48 ≤ c ∧ c ≤ 57)

/-- ASCII letter, as tested by `str.isalpha`. -/
def isAlphaNat (c : Nat) : Bool := decide ((65 ≤ c ∧ c ≤ 90) ∨ (97 ≤ c ∧ c ≤ 122))

/-- ASCII lowercasing of one character (`str.lower`). -/
def lowerNat (c : Nat) : Nat := if 65 ≤ c ∧ c ≤ 90 then c + 32 else c

/-- ASCII uppercasing of one character (`str.upper`). -/
def upperNat (c : Nat) : Nat := if 97 ≤ c ∧ c ≤ 122 then c - 32 else c

/-- Leading-whitespace removal (`str.lstrip`). -/
def trimLeft (s : PyStr) : PyStr := s.dropWhile isSpaceNat

/-- Trailing-whitespace removal (`str.rstrip`). -/
def trimRight (s : PyStr) : PyStr := (s.reverse.dropWhile isSpaceNat).reverse

/-- Python `str.strip()`: remove whitespace at both ends. -/
def pyStrip (s : PyStr) : PyStr := trimRight (trimLeft s)

/-- Python `str.lower()` (ASCII). -/
def pyLower (s : PyStr) : PyStr := s.map lowerNat

/-- Python `str.upper()` (ASCII). -/
def pyUpper (s : PyStr) : PyStr := s.map upperNat

/-- Python `str.replace(" ", "")`: remove exactly the space character U+0020
(other whitespace such as tabs is kept). -/
def removeSpaces (s : PyStr) : PyStr := s.filter (fun c => c ≠ 32)

/-- Python `str.isdigit()`: non-empty and all digits. -/
def pyIsDigit (s : PyStr) : Bool := !s.isEmpty && s.all isDigitNat

/-- Python `str.isalpha()`: non-empty and all letters. -/
def pyIsAlpha (s : PyStr) : Bool := !s.isEmpty && s.all isAlphaNat

/-- Decimal rendering of a natural number (Python `str(int)` for the
non-negative case; used by the orchestrator's f-string audit tags). -/
def natToStr (n : Nat) : PyStr := (Nat.toDigits 10 n).map Char.toNat

/-! ## `_normalize_query` (orchestrator.py lines 80-96) -/

/-- The dict returned by `_normalize_query`. -/
structure NormalizedQuery where
  raw : PyStr
  is_reg_number : Bool
  is_vat : Bool
  normalized_name : PyStr
deriving DecidableEq

/-- Embedding of `_normalize_query(query)`:
`q = query.strip()`; `is_reg_number = q.replace(" ", "").isdigit()`;
`is_vat = len(q) > 2 and q[:2].isalpha() and q[2:].replace(" ", "").isdigit()`;
`normalized_name = q.lower()`. -/
def normalize_query (query : PyStr) : NormalizedQuery :=
  let q := pyStrip query
  { raw := q
    is_reg_number := pyIsDigit (removeSpaces q)
    is_vat := decide (2 < q.length) && pyIsAlpha (q.take 2) && pyIsDigit (removeSpaces (q.drop 2))
    normalized_name := pyLower q }

/-- The cache key computed by `orchestrator_get_company_profile`
(orchestrator.py lines 111-117): the handler uppercases the country and
strips the query, then the key interpolates `norm["raw"]` (the stripped,
case-preserving query), and the premium flag. -/
def orchestrator_cache_key (country query : PyStr) (premium : Bool) : PyStr :=
  pys "profile:" ++ pyUpper country ++ pys ":" ++ (normalize_query (pyStrip query)).raw
    ++ pys ":" ++ (if premium then pys "premium" else pys "basic")

/-! ## In-process cache (orchestrator.py lines 48-76, Redis absent)

`cache_get` falls back to `_inprocess_cache` whenever Redis is not
available; an entry is returned only while its `expires_at` is truthy and
strictly in the future (lazy expiry on read).  Timestamps are modelled as
natural numbers of seconds. -/

structure CacheEntry (α : Type) where
  value : α
  expires_at : Nat

def Cache (α : Type) := PyStr → Option (CacheEntry α)

def emptyCache {α : Type} : Cache α := fun _ => none

/-- `cache_get`: `item = _inprocess_cache.get(key)`;
`if item and item.get("expires_at") and item["expires_at"] > now: return item["value"]`. -/
def cache_get {α : Type} (store : Cache α) (key : PyStr) (now : Nat) : Option α :=
  match store key with
  | some item => if item.expires_at ≠ 0 ∧ now < item.expires_at then some item.value else none
  | none => none

/-- `cache_set`: `_inprocess_cache[key] = {"value": value, "expires_at": now + ttl}`. -/
def cache_set {α : Type} (store : Cache α) (key : PyStr) (v : α) (ttl : Nat) (now : Nat) :
    Cache α :=
  fun k => if k = key then some ⟨v, now + ttl⟩ else store k

/-- Default of the `CACHE_TTL_PROFILE` environment variable (orchestrator.py line 34). -/
def CACHE_TTL_PROFILE : Nat := 86400

/-! ## Dynamically typed Python values

The orchestrator and the scoring stub receive JSON-shaped, dynamically
typed data; `PyVal` models the value kinds that can occur there.  Python
floats are modelled as rationals (they are only carried around and
compared for truthiness here, never subjected to rounding). -/

inductive PyVal where
  | none
  | bool (b : Bool)
  | int (n : Int)
  | float (q : Rat)
  | str (s : PyStr)
  | list (xs : List PyVal)
  | dict (kvs : List (PyStr × PyVal))

/-- Python truthiness of a value. -/
def truthy : PyVal → Bool
  | .none => false
  | .bool b => b
  | .int n => decide (n ≠ 0)
  | .float q => decide (q ≠ 0)
  | .str s => !s.isEmpty
  | .list xs => !xs.isEmpty
  | .dict kvs => !kvs.isEmpty

/-- First-match association lookup (dict representation). -/
def alookup {α : Type} : List (PyStr × α) → PyStr → Option α
  | [], _ => none
  | (k, v) :: rest, key => if k = key then some v else alookup rest key

/-- Python `d.get(key)` on a dict: the value, or `None` when absent. -/
def dictGet (kvs : List (PyStr × PyVal)) (key : PyStr) : PyVal :=
  match alookup kvs key with
  | some v => v
  | none => .none

/-- Python `d.get(key, default)` on a dict. -/
def dictGetD (kvs : List (PyStr × PyVal)) (key : PyStr) (dflt : PyVal) : PyVal :=
  match alookup kvs key with
  | some v => v
  | none => dflt

/-- Python `x or y`. -/
def pyOr (a b : PyVal) : PyVal := if truthy a then a else b

/-- Python `len(x)`: defined for sized values, raises `TypeError` otherwise. -/
def pyLenE : PyVal → Except PyStr Nat
  | .str s => .ok s.length
  | .list xs => .ok xs.length
  | .dict kvs => .ok kvs.length
  | _ => .error (pys "TypeError")

/-- Python `x.get(key)` as an attribute call: only dicts have `.get`;
anything else raises `AttributeError`. -/
def pyGetE : PyVal → PyStr → Except PyStr PyVal
  | .dict kvs, key => .ok (dictGet kvs key)
  | _, _ => .error (pys "AttributeError")

/-- Python `float(x)` for the value kinds reachable here (ints, bools and
floats; `float` of a non-numeric value raises).  Numeric strings, which
Python would parse, are not modelled — no embedded code path passes one. -/
def pyFloatE : PyVal → Except PyStr Rat
  | .float q => .ok q
  | .int n => .ok n
  | .bool b => .ok (if b then 1 else 0)
  | _ => .error (pys "TypeError")

/-- Python iteration `for m in x`: lists yield their elements, strings
their characters, dicts their keys; other values raise `TypeError`. -/
def pyIterE : PyVal → Except PyStr (List PyVal)
  | .list xs => .ok xs
  | .str s => .ok (s.map (fun c => .str [c]))
  | .dict kvs => .ok (kvs.map (fun kv => .str kv.1))
  | _ => .error (pys "TypeError")

/-- Python `x[0]` for the sized value kinds: lists and strings index,
dicts subscript by key `0` (absent here), raising `KeyError`. -/
def pyIndexZeroE : PyVal → Except PyStr PyVal
  | .list (x :: _) => .ok x
  | .list [] => .error (pys "IndexError")
  | .str (c :: _) => .ok (.str [c])
  | .str [] => .error (pys "IndexError")
  | _ => .error (pys "KeyError")

/-- Python `str(x)` as used in the orchestrator's f-string audit tags.
The container/float cases would render Python reprs; they are abbreviated
since no audit tag any claim touches contains one. -/
def pyStrOf : PyVal → PyStr
  | .none => pys "None"
  | .bool b => if b then pys "True" else pys "False"
  | .int n => if n < 0 then 45 :: natToStr n.natAbs else natToStr n.toNat
  | .float _ => pys "<float>"
  | .str s => s
  | .list _ => pys "<list>"
  | .dict _ => pys "<dict>"

/-! ## `compute_risk` (src/core/scoring.py lines 12-43) -/

/-- The dict returned by `compute_risk`. -/
structure RiskOut where
  score : Rat
  reasons : List PyStr
  provenance : List (PyStr × PyVal)

/-- The value Python binds to `name`:
`(profile or {}).get("name") or (profile or {}).get("company") or ""`
(`profile or {}` behaves exactly like the profile dict itself for lookups). -/
def selectRiskName (profile : List (PyStr × PyVal)) : PyVal :=
  pyOr (dictGet profile (pys "name")) (pyOr (dictGet profile (pys "company")) (.str []))

/-- Embedding of `compute_risk(profile)`.  The input is a Python dict;
`len(name)` raises `TypeError` when the selected name is truthy but
unsized, and that exception propagates (the stub has no handler). -/
def compute_risk (profile : List (PyStr × PyVal)) : Except PyStr RiskOut :=
  let name := selectRiskName profile
  if truthy name then
    match pyLenE name with
    | .error e => .error e
    | .ok l =>
      if l % 2 = 0 then
        .ok ⟨1/5, [pys "name-length-even-stub"], [(pys "stub", .bool true)]⟩
      else
        .ok ⟨1/20, [pys "name-length-odd-stub"], [(pys "stub", .bool true)]⟩
  else
    .ok ⟨0, [pys "no-name-stub"], [(pys "stub", .bool true)]⟩

/-- Observable "the stub raised" bit of `compute_risk` (used to state
claims about raising without needing decidable equality on `RiskOut`). -/
def compute_risk_raises (profile : List (PyStr × PyVal)) : Bool :=
  match compute_risk profile with
  | .error _ => true
  | .ok _ => false

/-! ## `orchestrator_get_company_profile` (orchestrator.py lines 98-229)

The three upstream awaits — `kvk_basisprofiel(norm["raw"])`,
`kvk_search(norm["raw"])` and `opensanctions_search(query)` — are
parameters of the embedding: each is the `Except`-valued outcome of that
adapter call (`.error msg` models the call raising an exception whose
`str()` is `msg`).  The two `try` blocks are transcribed so that state
mutated before a raise is kept, exactly as Python leaves it. -/

/-- The `company` response-skeleton dict (orchestrator.py lines 125-135). -/
structure Company where
  name : PyVal
  country : PyStr
  registration_number : PyVal
  vat_number : PyVal
  kvk_number : PyVal
  status : PyVal
  registered_address : PyVal
  legal_form : PyVal
  sbi_codes : List PyVal

/-- The `basic_checks` dict (line 136). -/
structure BasicChecks where
  vat_valid : PyVal
  reg_verified : Bool
  last_data_pull : PyStr

/-- One entry appended to `sanctions_section["matches"]` (lines 190-196).
The `"raw"` value: the source's conditional
`m.get("raw") if isinstance(m.get("raw", None), dict) else m.get("raw")`
produces `m.get("raw")` on both branches, so it is transcribed as such. -/
structure SMatch where
  source : PyVal
  entity_id : PyVal
  confidence : Rat
  matched_name : PyVal
  raw : PyVal

/-- The `sanctions_section` dict (line 137).  The `"matches"` list is the
field `matches_list` (the source key `matches` is reserved syntax in Lean). -/
structure SanctionsSection where
  hits_count : Nat
  matches_list : List SMatch

/-- An `audit["raw_calls"]` outcome summary: one of
`{"fetched": bool}`, `{"result_count": int-or-None}`, `{"error": str}`. -/
inductive RawCall where
  | fetched (b : Bool)
  | result_count (n : Option Nat)
  | err (msg : PyStr)
deriving DecidableEq

/-- The `audit` dict (line 138): a list of source tags and an
insertion-ordered mapping from call name to outcome summary. -/
structure Audit where
  sources : List PyStr
  raw_calls : List (PyStr × RawCall)

/-- Assignment `raw_calls[key] = v` on the insertion-ordered mapping. -/
def rcSet : List (PyStr × RawCall) → PyStr → RawCall → List (PyStr × RawCall)
  | [], key, v => [(key, v)]
  | (k, w) :: rest, key, v =>
    if k = key then (key, v) :: rest else (k, w) :: rcSet rest key v

/-- The `except` handler of the registry block (lines 180-182):
`audit["raw_calls"]["registry_error"] = {"error": str(e)}`. -/
def regFail (e : PyStr) (c : Company) (bc : BasicChecks) (a : Audit) :
    Company × BasicChecks × Audit :=
  (c, bc, { a with raw_calls := rcSet a.raw_calls (pys "registry_error") (.err e) })

/-- The `kvk:basisprofiel` branch (lines 144-155), entered when
`norm["is_reg_number"] and premium` holds within country `"NL"`. -/
def registry_basis_branch (bp : Except PyStr PyVal) (c : Company) (bc : BasicChecks)
    (a : Audit) : Company × BasicChecks × Audit :=
  match bp with
  | .error e => regFail e c bc a
  | .ok bpv =>
    let rc1 := rcSet a.raw_calls (pys "kvk_basisprofiel") (.fetched (truthy bpv))
    let a1 := { a with raw_calls := rc1 }
    if truthy bpv then
      match bpv with
      | .dict kvs =>
        let kvkN := dictGet kvs (pys "kvkNumber")
        let c1 : Company :=
          { c with
            name := dictGet kvs (pys "name")
            kvk_number := kvkN
            registration_number := kvkN
            legal_form := dictGet kvs (pys "legalForm")
            registered_address := dictGet kvs (pys "address")
            status := pyOr (dictGet kvs (pys "status")) (.str (pys "unknown")) }
        let bc1 := { bc with reg_verified := true }
        let a2 := { a1 with
          sources := a1.sources ++ [pys "kvk:basisprofiel:" ++ pyStrOf kvkN] }
        (c1, bc1, a2)
      | _ =>
        -- a truthy non-dict `bp` raises `AttributeError` at `bp.get("name")`
        regFail (pys "AttributeError") c bc a1
    else
      (c, bc, a1)

/-- The else-arm tag of the search branch (line 171):
`kvk:search:multiple_or_none:{len(hits) if hits is not None else 'unknown'}`.
Computing `len(hits)` can itself raise, hence the `Except`. -/
def search_none_tag (hits : PyVal) : Except PyStr PyStr :=
  match hits with
  | .none => .ok (pys "kvk:search:multiple_or_none:" ++ pys "unknown")
  | _ =>
    match pyLenE hits with
    | .error e => .error e
    | .ok n => .ok (pys "kvk:search:multiple_or_none:" ++ natToStr n)

/-- The `kvk_search` branch (lines 157-171). -/
def registry_search_branch (sr0 : Except PyStr PyVal) (c : Company) (bc : BasicChecks)
    (a : Audit) : Company × BasicChecks × Audit :=
  match sr0 with
  | .error e => regFail e c bc a
  | .ok srv =>
    let sr := pyOr srv (.dict [])          -- `sr = await kvk_search(...) or {}`
    -- `audit["raw_calls"]["kvk_search"] = {"result_count": len(sr.get("data", [])) if isinstance(sr, dict) else None}`
    match sr with
    | .dict kvs =>
      match pyLenE (dictGetD kvs (pys "data") (.list [])) with
      | .error e => regFail e c bc a
      | .ok cnt =>
        let rc1 := rcSet a.raw_calls (pys "kvk_search") (.result_count (some cnt))
        let a1 := { a with raw_calls := rc1 }
        let hits := dictGet kvs (pys "data")   -- `hits = sr.get("data") ...`
        -- `if hits and len(hits) == 1:`
        if truthy hits then
          match pyLenE hits with
          | .error e => regFail e c bc a1
          | .ok lh =>
            if lh = 1 then
              match pyIndexZeroE hits with     -- `it = hits[0]`
              | .error e => regFail e c bc a1
              | .ok it =>
                match it with
                | .dict ikvs =>
                  let kvkN := pyOr (dictGet ikvs (pys "kvkNumber"))
                                   (dictGet ikvs (pys "kvk_nummer"))
                  let c1 : Company :=
                    { c with
                      name := pyOr (dictGet ikvs (pys "name"))
                                   (dictGet ikvs (pys "handelsnaam"))
                      kvk_number := kvkN
                      registration_number := kvkN
                      status := pyOr (dictGet ikvs (pys "status")) c.status
                      registered_address := dictGet ikvs (pys "address") }
                  let bc1 := { bc with reg_verified := true }
                  let a2 := { a1 with
                    sources := a1.sources ++ [pys "kvk:search:" ++ pyStrOf kvkN] }
                  (c1, bc1, a2)
                | _ => regFail (pys "AttributeError") c bc a1
            else
              match search_none_tag hits with
              | .error e => regFail e c bc a1
              | .ok tag => (c, bc, { a1 with sources := a1.sources ++ [tag] })
        else
          match search_none_tag hits with
          | .error e => regFail e c bc a1
          | .ok tag => (c, bc, { a1 with sources := a1.sources ++ [tag] })
    | _ =>
      -- non-dict `sr`: result_count None, `hits = []`, so the else-arm runs
      let rc1 := rcSet a.raw_calls (pys "kvk_search") (.result_count none)
      let a1 := { a with raw_calls := rc1 }
      let tag := pys "kvk:search:multiple_or_none:" ++ natToStr 0
      (c, bc, { a1 with sources := a1.sources ++ [tag] })

/-- Step 2 of the orchestrator, the registry lookup `try` block
(lines 140-182).  `country` is the already-uppercased country code. -/
def registry_step (country : PyStr) (norm : NormalizedQuery) (premium : Bool)
    (regBasis regSearch : Except PyStr PyVal)
    (c : Company) (bc : BasicChecks) (a : Audit) : Company × BasicChecks × Audit :=
  if country = pys "NL" then
    if norm.is_reg_number && premium then
      registry_basis_branch regBasis c bc a
    else
      registry_search_branch regSearch c bc a
  else if country = pys "BE" then
    (c, bc, { a with sources := a.sources ++ [pys "cbe:skipped"] })
  else if country = pys "LU" then
    (c, bc, { a with sources := a.sources ++ [pys "lbr:skipped"] })
  else
    (c, bc, { a with sources := a.sources ++ [pys "registry:unknown_country"] })

/-- One iteration of the match loop (lines 189-196): on a non-dict `m`
the first `m.get` raises; `float(m.get("confidence", 0.8))` may raise. -/
def smatch_of (m : PyVal) : Except PyStr SMatch :=
  match m with
  | .dict kvs =>
    match pyFloatE (dictGetD kvs (pys "confidence") (.float (4/5))) with
    | .error e => .error e
    | .ok q =>
      .ok { source := pyOr (dictGet kvs (pys "source")) (.str (pys "opensanctions"))
            entity_id := dictGet kvs (pys "id")
            confidence := q
            matched_name := dictGet kvs (pys "name")
            raw := dictGet kvs (pys "raw") }
  | _ => .error (pys "AttributeError")

/-- The `for m in matches` loop: appends successfully built entries in
order; on a raise, entries appended so far are kept (Python mutates the
list in place) and the exception is reported. -/
def sanctions_loop : List PyVal → List SMatch → List SMatch × Option PyStr
  | [], acc => (acc, none)
  | m :: rest, acc =>
    match smatch_of m with
    | .error e => (acc, some e)
    | .ok sm => sanctions_loop rest (acc ++ [sm])

/-- The `except` handler of the sanctions block (lines 200-202). -/
def sanctFail (e : PyStr) (ss : SanctionsSection) (a : Audit) : SanctionsSection × Audit :=
  (ss, { a with raw_calls := rcSet a.raw_calls (pys "opensanctions_error") (.err e) })

/-- Step 3 of the orchestrator, the sanctions screening `try` block
(lines 184-202).  `sanct` is the outcome of `opensanctions_search(query)`. -/
def sanctions_step (sanct : Except PyStr PyVal) (ss : SanctionsSection) (a : Audit) :
    SanctionsSection × Audit :=
  match sanct with
  | .error e => sanctFail e ss a
  | .ok osr =>
    -- `matches = osr.get("matches") if isinstance(osr, dict) else []`
    let mv : PyVal := match osr with
      | .dict kvs => dictGet kvs (pys "matches")
      | _ => .list []
    -- `sanctions_section["hits_count"] = len(matches)` (raises on unsized values)
    match pyLenE mv with
    | .error e => sanctFail e ss a
    | .ok n =>
      let ss1 := { ss with hits_count := n }
      match pyIterE mv with
      | .error e => sanctFail e ss1 a
      | .ok items =>
        match sanctions_loop items ss1.matches_list with
        | (ms, some e) => sanctFail e { ss1 with matches_list := ms } a
        | (ms, none) =>
          let ss2 := { ss1 with matches_list := ms }
          let rc1 := rcSet a.raw_calls (pys "opensanctions") (.result_count (some ss2.hits_count))
          let a1 := { a with raw_calls := rc1 }
          -- `if sanctions_section["hits_count"]: audit["sources"].append("opensanctions")`
          if ss2.hits_count ≠ 0 then
            (ss2, { a1 with sources := a1.sources ++ [pys "opensanctions"] })
          else
            (ss2, a1)

/-- The scoring input assembled at step 4 (lines 205-212), as the Python
dict `compute_risk` receives.  `company` is rendered with its nine keys in
source order; `"status": company.get("status", "unknown")` is the always
present `status` field. -/
def scoringInput (c : Company) (ss : SanctionsSection) : List (PyStr × PyVal) :=
  [ (pys "company", .dict
      [ (pys "name", c.name)
      , (pys "country", .str c.country)
      , (pys "registration_number", c.registration_number)
      , (pys "vat_number", c.vat_number)
      , (pys "kvk_number", c.kvk_number)
      , (pys "status", c.status)
      , (pys "registered_address", c.registered_address)
      , (pys "legal_form", c.legal_form)
      , (pys "sbi_codes", .list c.sbi_codes) ])
  , (pys "sanctions", .dict
      [ (pys "hits_count", .int ss.hits_count)
      , (pys "matches", .list (ss.matches_list.map (fun m => .dict
          [ (pys "source", m.source)
          , (pys "entity_id", m.entity_id)
          , (pys "confidence", .float m.confidence)
          , (pys "matched_name", m.matched_name)
          , (pys "raw", m.raw) ]))) ])
  , (pys "pep", .dict [ (pys "hits_count", .int 0), (pys "matches", .list []) ])
  , (pys "ubo", .dict [ (pys "missing_and_required", .bool false) ])
  , (pys "status", c.status)
  , (pys "recent_name_changes", .int 0) ]

/-- The unified result dict (lines 215-221). -/
structure OrchResult where
  company : Company
  basic_checks : BasicChecks
  sanctions : SanctionsSection
  risk_score : RiskOut
  audit : Audit

/-- The request parameters consumed at lines 111-114. -/
structure OrchParams where
  country : PyStr
  query : PyStr
  premium : Bool
  include_history : Bool

/-- Embedding of `orchestrator_get_company_profile(params)`.

`regBasis`, `regSearch`, `sanct` are the outcomes of the three possible
upstream awaits; `store`/`now` are the in-process cache and the simulated
clock; `nowIso` stands for `datetime.utcnow().isoformat()`.  The returned
pair is (response, cache after the call); `.error` models the request
itself raising (only `compute_risk` runs outside every `try`). -/
def orchestrator_get_company_profile
    (regBasis regSearch sanct : Except PyStr PyVal)
    (store : Cache OrchResult) (now : Nat) (nowIso : PyStr)
    (params : OrchParams) : Except PyStr (OrchResult × Cache OrchResult) :=
  let country := pyUpper params.country
  let query := pyStrip params.query
  let premium := params.premium
  let norm := normalize_query query
  let cache_key := pys "profile:" ++ country ++ pys ":" ++ norm.raw ++ pys ":"
                     ++ (if premium then pys "premium" else pys "basic")
  match cache_get store cache_key now with
  | some cached => .ok (cached, store)    -- `if cached: return cached`
  | none =>
    let c0 : Company :=
      { name := .none, country := country, registration_number := .none
        vat_number := .none, kvk_number := .none, status := .str (pys "unknown")
        registered_address := .none, legal_form := .none, sbi_codes := [] }
    let bc0 : BasicChecks :=
      { vat_valid := .none, reg_verified := false, last_data_pull := nowIso ++ pys "Z" }
    let ss0 : SanctionsSection := { hits_count := 0, matches_list := [] }
    let a0 : Audit := { sources := [], raw_calls := [] }
    let rs := registry_step country norm premium regBasis regSearch c0 bc0 a0
    let sa := sanctions_step sanct ss0 rs.2.2
    match compute_risk (scoringInput rs.1 sa.1) with
    | .error e => .error e
    | .ok risk =>
      let result : OrchResult :=
        { company := rs.1, basic_checks := rs.2.1, sanctions := sa.1
          risk_score := risk, audit := sa.2 }
      -- step 5: `cache_set(cache_key, result, ttl=CACHE_TTL_PROFILE)`
      -- (wrapped in try/except in the source; the in-process store cannot raise)
      .ok (result, cache_set store cache_key result CACHE_TTL_PROFILE now)

/-! ## Interleaving model of two concurrent requests with the same key

Under asyncio, `orchestrator_get_company_profile` runs atomically between
awaits.  For a free-text cache-miss request its awaits are, in order:
the `cache_get`, the `kvk_search` call, the `opensanctions_search` call,
and the `cache_set` (after which the result is returned).  Two requests
with the identical normalized query therefore interact only through the
shared in-process cache entry for their common key, which this model
reduces to a single shared slot.  A schedule is the list of which request
runs its next atomic step; the model counts upstream registry and
sanctions calls.  The value a fetch computes and stores is tagged with the
fetching request's index, so a cache-served result is observably the
other caller's. -/

structure SFState where
  cache : Option Nat
  pc0 : Nat
  pc1 : Nat
  ret0 : Option Nat
  ret1 : Option Nat
  regCalls : Nat
  sancCalls : Nat
deriving DecidableEq

/-- Program counters: 0 = about to `cache_get`; 1 = about to call the
registry; 2 = about to call sanctions; 3 = about to `cache_set` and
return; 4 = finished. -/
def sfStepOne (rid : Nat) (pc : Nat) (ret : Option Nat) (s : SFState) :
    Nat × Option Nat × SFState :=
  match pc with
  | 0 =>
    match s.cache with
    | some v => (4, some v, s)                 -- cache hit: return cached, no fan-out
    | none => (1, ret, s)                      -- cache miss: proceed to fan-out
  | 1 => (2, ret, { s with regCalls := s.regCalls + 1 })
  | 2 => (3, ret, { s with sancCalls := s.sancCalls + 1 })
  | 3 => (4, some rid, { s with cache := some rid })
  | _ => (pc, ret, s)                          -- finished: scheduling is a no-op

/-- One scheduler step: `i = false` runs request 0, `i = true` request 1. -/
def sfStep (i : Bool) (s : SFState) : SFState :=
  if i then
    match sfStepOne 1 s.pc1 s.ret1 s with
    | (pc, ret, s1) => { s1 with pc1 := pc, ret1 := ret }
  else
    match sfStepOne 0 s.pc0 s.ret0 s with
    | (pc, ret, s1) => { s1 with pc0 := pc, ret0 := ret }

def sfRun (sched : List Bool) (s : SFState) : SFState := sched.foldl (fun t i => sfStep i t) s

/-- Both requests start at their cache check, with no cache entry. -/
def sfInit : SFState :=
  { cache := none, pc0 := 0, pc1 := 0, ret0 := none, ret1 := none, regCalls := 0, sancCalls := 0 }

/-- Sequential schedule: request 0 runs to completion, then request 1 starts. -/
def sfSeqSched : List Bool := [false, false, false, false, true]

/-- Fully interleaved schedule: both requests pass their cache check
before either has stored its result. -/
def sfConcSched : List Bool := [false, true, false, true, false, true, false, true]

/-! ## `redact_pii` (src/services/mcp_server/utils/security.py lines 7-21)

`redact_pii` applies `pat.sub("[REDACTED]", out)` for the three compiled
patterns in order:
  1. `[a-zA-Z0-9_.+-]+@[a-zA-Z0-9-]+\.[a-zA-Z0-9-.]+`   (email-like)
  2. `\+?\d[\d\-\s]{6,}\d`                              (phone-like)
  3. `\b[A-Z]{2}\s*\d{8,}\b`                            (registry-id-like)
Each pattern is embedded as a dedicated matcher producing the length of
the (leftmost, greedy-with-backtracking) match starting at the given
position, exactly as Python's engine resolves it for that pattern; `sub`
scans left to right, replacing non-overlapping matches.  The word
boundary `\b` of pattern 3 needs the character preceding the current
position, threaded as `prev`. -/

def emailLocalChar (c : Nat) : Bool :=
  isAlphaNat c || isDigitNat c || decide (c = 95 ∨ c = 46 ∨ c = 43 ∨ c = 45)

def emailDomChar (c : Nat) : Bool := isAlphaNat c || isDigitNat c || decide (c = 45)

def emailTldChar (c : Nat) : Bool :=
  isAlphaNat c || isDigitNat c || decide (c = 45 ∨ c = 46)

/-- Regex class `[\d\-\s]`. -/
def phoneMidChar (c : Nat) : Bool := isDigitNat c || decide (c = 45) || isSpaceNat c

/-- Regex class `\w` (ASCII), for `\b`. -/
def wordChar (c : Nat) : Bool := isAlphaNat c || isDigitNat c || decide (c = 95)

def isUpperAZ (c : Nat) : Bool := decide (65 ≤ c ∧ c ≤ 90)

/-- Match of pattern 1 at the head of `l`.  Each `+`-class run is maximal:
`@` is not in the local class and `.` is not in the domain class, so the
engine's backtracking cannot shorten them, and the final run has nothing
after it. -/
def emailMatch (l : PyStr) : Option Nat :=
  let r1 := (l.takeWhile emailLocalChar).length
  if r1 = 0 then none else
    match l.drop r1 with
    | 64 :: rest2 =>
      let r2 := (rest2.takeWhile emailDomChar).length
      if r2 = 0 then none else
        match rest2.drop r2 with
        | 46 :: rest3 =>
          let r3 := (rest3.takeWhile emailTldChar).length
          if r3 = 0 then none else some (r1 + 1 + r2 + 1 + r3)
        | _ => none
    | _ => none

/-- Index of the last digit of a run (`none` if it has no digit). -/
def lastDigitIdx : PyStr → Option Nat
  | [] => none
  | c :: rest =>
    match lastDigitIdx rest with
    | some i => some (i + 1)
    | none => if isDigitNat c then some 0 else none

/-- Match of pattern 2 at the head of `l`.  The greedy `{6,}` backtracks
from the maximal `[\d\-\s]` run until the next character is a digit;
since digits are inside the run class, the longest viable split ends at
the run's last digit, which must sit at offset at least 6. -/
def phoneMatch (l : PyStr) : Option Nat :=
  let pl := match l with
    | 43 :: t => (1, t)
    | _ => (0, l)
  match pl.2 with
  | d :: rest =>
    if isDigitNat d then
      match lastDigitIdx (rest.takeWhile phoneMidChar) with
      | some m => if 6 ≤ m then some (pl.1 + 1 + m + 1) else none
      | none => none
    else none
  | [] => none

/-- Match of pattern 3 at the head of `l`, given the preceding character
`prev`.  `\s*` cannot backtrack into `\d{8,}` (the classes are disjoint),
and shortening the maximal digit run always lands `\b` between two
digits, so only the maximal run can close the match. -/
def registryMatch (prev : Option Nat) (l : PyStr) : Option Nat :=
  let bnd := match prev with
    | none => true
    | some p => !(wordChar p)
  if bnd then
    match l with
    | a :: b :: rest =>
      if isUpperAZ a && isUpperAZ b then
        let s := (rest.takeWhile isSpaceNat).length
        let rest2 := rest.drop s
        let d := (rest2.takeWhile isDigitNat).length
        if 8 ≤ d then
          match rest2.drop d with
          | [] => some (2 + s + d)
          | c :: _ => if wordChar c then none else some (2 + s + d)
        else none
      else none
    | _ => none
  else none

/-- The fixed placeholder. -/
def redactedStr : PyStr := pys "[REDACTED]"

/-- `pat.sub("[REDACTED]", text)` for a matcher `M`: scan left to right;
at each position either replace the match starting there and resume after
it, or keep the character.  Matching continues against the original text
(`prev` is the preceding original character), as Python's `sub` does.
`fuel` only bounds recursion; it is set to the text length, which every
step consumes (our matchers never match the empty string). -/
def subst (M : Option Nat → PyStr → Option Nat) : Nat → Option Nat → PyStr → PyStr
  | 0, _, l => l
  | _ + 1, _, [] => []
  | fuel + 1, prev, c :: rest =>
    match M prev (c :: rest) with
    | none => c :: subst M fuel (some c) rest
    | some n => redactedStr ++ subst M fuel ((List.take n (c :: rest)).getLast?)
                  (List.drop n (c :: rest))

/-- One whole-text substitution pass. -/
def subPass (M : Option Nat → PyStr → Option Nat) (l : PyStr) : PyStr :=
  subst M l.length none l

/-- Embedding of `redact_pii(text)`: the falsy guard, then the three
passes in `PII_PATTERNS` order. -/
def redact_pii (text : PyStr) : PyStr :=
  if text.isEmpty then text
  else subPass registryMatch
        (subPass (fun _ s => phoneMatch s)
          (subPass (fun _ s => emailMatch s) text))

/-- Specification relation for one pass: the output is the input with
each (leftmost, non-overlapping) match of `M` replaced by the placeholder
and every other character kept unchanged. -/
inductive Replaces (M : Option Nat → PyStr → Option Nat) :
    Option Nat → PyStr → PyStr → Prop where
  | done : ∀ prev, Replaces M prev [] []
  | keep : ∀ prev c rest out, M prev (c :: rest) = none →
      Replaces M (some c) rest out → Replaces M prev (c :: rest) (c :: out)
  | redact : ∀ prev c rest n out, M prev (c :: rest) = some n → 0 < n →
      Replaces M ((List.take n (c :: rest)).getLast?) (List.drop n (c :: rest)) out →
      Replaces M prev (c :: rest) (redactedStr ++ out)

/-! ## Character- and list-level lemmas about the string primitives -/

lemma lowerNat_isSpace (c : Nat) : isSpaceNat (lowerNat c) = isSpaceNat c := by
  unfold lowerNat isSpaceNat
  split
  · exact decide_eq_decide.mpr (by omega)
  · rfl

lemma lowerNat_isDigit (c : Nat) : isDigitNat (lowerNat c) = isDigitNat c := by
  unfold lowerNat isDigitNat
  split
  · exact decide_eq_decide.mpr (by omega)
  · rfl

lemma lowerNat_isAlpha (c : Nat) : isAlphaNat (lowerNat c) = isAlphaNat c := by
  unfold lowerNat isAlphaNat
  split
  · exact decide_eq_decide.mpr (by omega)
  · rfl

lemma lowerNat_ne_space (c : Nat) : decide (lowerNat c ≠ 32) = decide (c ≠ 32) := by
  unfold lowerNat
  split
  · exact decide_eq_decide.mpr (by omega)
  · rfl

lemma lowerNat_idem (c : Nat) : lowerNat (lowerNat c) = lowerNat c := by
  unfold lowerNat
  by_cases h : 65 ≤ c ∧ c ≤ 90
  · rw [if_pos h, if_neg (by omega)]
  · rw [if_neg h, if_neg h]

lemma dropWhile_idem (p : Nat → Bool) (l : PyStr) :
    (l.dropWhile p).dropWhile p = l.dropWhile p := by
  induction l with
  | nil => rfl
  | cons c rest ih =>
    by_cases h : p c
    · simp [List.dropWhile_cons, h, ih]
    · simp [List.dropWhile_cons, h]

lemma dropWhile_length_le (p : Nat → Bool) (l : PyStr) :
    (l.dropWhile p).length ≤ l.length := by
  obtain ⟨t, ht⟩ := List.dropWhile_suffix (l := l) p
  calc (l.dropWhile p).length ≤ t.length + (l.dropWhile p).length := by omega
  _ = l.length := by rw [← List.length_append, ht]

lemma dropWhile_fixed_head (p : Nat → Bool) (c : Nat) (r : PyStr)
    (h : (c :: r).dropWhile p = c :: r) : p c = false := by
  by_cases hc : p c
  · exfalso
    rw [List.dropWhile_cons, if_pos hc] at h
    have hlen := dropWhile_length_le p r
    have := congrArg List.length h
    simp at this
    omega
  · simpa using hc

lemma dropWhile_map_pred (p : Nat → Bool) (f : Nat → Nat) (l : PyStr)
    (hf : ∀ c, p (f c) = p c) : (l.map f).dropWhile p = (l.dropWhile p).map f := by
  rw [List.dropWhile_map]
  have hpf : (p ∘ f) = p := funext hf
  rw [hpf]

lemma trimLeft_map_pred (f : Nat → Nat) (l : PyStr)
    (hf : ∀ c, isSpaceNat (f c) = isSpaceNat c) :
    trimLeft (l.map f) = (trimLeft l).map f :=
  dropWhile_map_pred isSpaceNat f l hf

lemma trimRight_map_pred (f : Nat → Nat) (l : PyStr)
    (hf : ∀ c, isSpaceNat (f c) = isSpaceNat c) :
    trimRight (l.map f) = (trimRight l).map f := by
  unfold trimRight
  rw [← List.map_reverse, dropWhile_map_pred isSpaceNat f l.reverse hf, List.map_reverse]

lemma pyStrip_map_pred (f : Nat → Nat) (l : PyStr)
    (hf : ∀ c, isSpaceNat (f c) = isSpaceNat c) :
    pyStrip (l.map f) = (pyStrip l).map f := by
  unfold pyStrip
  rw [trimLeft_map_pred f l hf, trimRight_map_pred f (trimLeft l) hf]

lemma pyStrip_lower (s : PyStr) : pyStrip (pyLower s) = pyLower (pyStrip s) :=
  pyStrip_map_pred lowerNat s lowerNat_isSpace

lemma trimLeft_idem (l : PyStr) : trimLeft (trimLeft l) = trimLeft l :=
  dropWhile_idem isSpaceNat l

lemma trimRight_idem (l : PyStr) : trimRight (trimRight l) = trimRight l := by
  unfold trimRight
  rw [List.reverse_reverse, dropWhile_idem]

lemma trimRight_append_rest (l : PyStr) : ∃ t, l = trimRight l ++ t := by
  obtain ⟨t, ht⟩ := List.dropWhile_suffix (l := l.reverse) isSpaceNat
  refine ⟨t.reverse, ?_⟩
  calc l = l.reverse.reverse := by rw [List.reverse_reverse]
  _ = (t ++ l.reverse.dropWhile isSpaceNat).reverse := by rw [ht]
  _ = trimRight l ++ t.reverse := by rw [List.reverse_append]; rfl

lemma trimLeft_trimRight_fixed (a : PyStr) (ha : trimLeft a = a) :
    trimLeft (trimRight a) = trimRight a := by
  obtain ⟨t, ht⟩ := trimRight_append_rest a
  rcases h : trimRight a with _ | ⟨c, u⟩
  · rfl
  · have hacu : a = c :: (u ++ t) := by rw [ht, h]; simp
    have hhead : isSpaceNat c = false := by
      apply dropWhile_fixed_head isSpaceNat c (u ++ t)
      have ha2 := ha
      unfold trimLeft at ha2
      rw [hacu] at ha2
      exact ha2
    unfold trimLeft
    rw [List.dropWhile_cons, if_neg (by simp [hhead])]

lemma pyStrip_idem (s : PyStr) : pyStrip (pyStrip s) = pyStrip s := by
  unfold pyStrip
  rw [trimLeft_trimRight_fixed (trimLeft s) (trimLeft_idem s), trimRight_idem]

lemma pyLower_idem (s : PyStr) : pyLower (pyLower s) = pyLower s := by
  unfold pyLower
  rw [List.map_map]
  exact List.map_congr_left (fun c _ => lowerNat_idem c)

lemma removeSpaces_lower (s : PyStr) :
    removeSpaces (pyLower s) = pyLower (removeSpaces s) := by
  unfold removeSpaces pyLower
  rw [List.filter_map]
  have hpf : ((fun c => decide (c ≠ 32)) ∘ lowerNat) = (fun c => decide (c ≠ 32)) :=
    funext lowerNat_ne_space
  rw [hpf]

lemma pyIsDigit_lower (s : PyStr) : pyIsDigit (pyLower s) = pyIsDigit s := by
  unfold pyIsDigit pyLower
  rw [List.all_map]
  have hpf : (isDigitNat ∘ lowerNat) = isDigitNat := funext lowerNat_isDigit
  rw [hpf]
  cases s <;> rfl

lemma pyIsAlpha_lower (s : PyStr) : pyIsAlpha (pyLower s) = pyIsAlpha s := by
  unfold pyIsAlpha pyLower
  rw [List.all_map]
  have hpf : (isAlphaNat ∘ lowerNat) = isAlphaNat := funext lowerNat_isAlpha
  rw [hpf]
  cases s <;> rfl

lemma pyLower_length (s : PyStr) : (pyLower s).length = s.length := List.length_map s lowerNat

lemma pyLower_take (n : Nat) (s : PyStr) : (pyLower s).take n = pyLower (s.take n) :=
  (List.map_take lowerNat s n).symm

lemma pyLower_drop (n : Nat) (s : PyStr) : (pyLower s).drop n = pyLower (s.drop n) :=
  (List.map_drop lowerNat s n).symm

/-! ## Claim C1 — single-flight -/

/-- C1 counterexample: the claim asserts that two concurrent
`getCompanyProfile` requests with the same normalized query and no cache
entry issue exactly one upstream registry call and one sanctions call,
the second caller observing the first's result.  Under the interleaved
schedule — a legal asyncio execution in which both requests pass their
cache check before either stores a result — both requests complete, two
registry calls and two sanctions calls are issued, and each caller
returns its own fetch, not the other's. -/
theorem c1_single_flight_counterexample :
    (sfRun sfConcSched sfInit).pc0 = 4 ∧ (sfRun sfConcSched sfInit).pc1 = 4
    ∧ ¬((sfRun sfConcSched sfInit).regCalls = 1 ∧ (sfRun sfConcSched sfInit).sancCalls = 1)
    ∧ (sfRun sfConcSched sfInit).ret1 ≠ (sfRun sfConcSched sfInit).ret0 := by
  decide

/-- C1 (amended): the orchestrator has no single-flight guard.  When both
requests pass the cache check before either stores its result (the
interleaved schedule), each issues its own registry and sanctions call —
two of each in total — and each returns its own fetch.  Exactly one
registry and one sanctions call occur only when the second request's
cache check happens after the first request completes (the sequential
schedule), in which case the second request is served the first caller's
cached result and issues no upstream calls. -/
theorem c1_no_single_flight_amended :
    ((sfRun sfConcSched sfInit).pc0 = 4 ∧ (sfRun sfConcSched sfInit).pc1 = 4
      ∧ (sfRun sfConcSched sfInit).regCalls = 2 ∧ (sfRun sfConcSched sfInit).sancCalls = 2
      ∧ (sfRun sfConcSched sfInit).ret0 = some 0 ∧ (sfRun sfConcSched sfInit).ret1 = some 1)
    ∧ ((sfRun sfSeqSched sfInit).pc0 = 4 ∧ (sfRun sfSeqSched sfInit).pc1 = 4
      ∧ (sfRun sfSeqSched sfInit).regCalls = 1 ∧ (sfRun sfSeqSched sfInit).sancCalls = 1
      ∧ (sfRun sfSeqSched sfInit).ret1 = some 0) := by
  decide

/-! ## Claim C2 — cache key as a pure function of the request -/

/-- C2 counterexample: the queries "Acme" and "acme" are equal up to
letter case (and have no surrounding whitespace), yet with the same
country and premium flag they produce different cache keys — the key
interpolates the case-preserving stripped query, not the lowercased one. -/
theorem c2_cache_key_counterexample :
    pyLower (pyStrip (pys "Acme")) = pyLower (pyStrip (pys "acme"))
    ∧ orchestrator_cache_key (pys "NL") (pys "Acme") false
        ≠ orchestrator_cache_key (pys "NL") (pys "acme") false := by
  decide

/-- C2 (amended): the cache key is a pure function of the uppercased
country, the whitespace-stripped raw query, and the premium flag —
country case and query surrounding whitespace are normalized, but query
letter case is not (and country whitespace is not stripped). -/
theorem c2_cache_key_pure_function_amended (c1 c2 q1 q2 : PyStr) (p : Bool)
    (hc : pyUpper c1 = pyUpper c2) (hq : pyStrip q1 = pyStrip q2) :
    orchestrator_cache_key c1 q1 p = orchestrator_cache_key c2 q2 p := by
  unfold orchestrator_cache_key
  rw [hc, hq]

/-- Witness for C2 (amended) at a concrete input. -/
theorem c2_cache_key_witness :
    pyUpper (pys "nl") = pyUpper (pys "NL")
    ∧ pyStrip (pys " acme ") = pyStrip (pys "acme")
    ∧ orchestrator_cache_key (pys "nl") (pys " acme ") true
        = orchestrator_cache_key (pys "NL") (pys "acme") true :=
  ⟨by decide, by decide,
    c2_cache_key_pure_function_amended (pys "nl") (pys "NL") (pys " acme ") (pys "acme") true
      (by decide) (by decide)⟩

/-! ## Claim C5 — idempotent normalization -/

/-- C5 counterexample: renormalizing the normalized name of "Acme" does
not reproduce `normalize("Acme")` — the `raw` field of the second pass is
the lowercased "acme", while the first pass kept "Acme". -/
theorem c5_normalize_idempotent_counterexample :
    normalize_query ((normalize_query (pys "Acme")).normalized_name)
      ≠ normalize_query (pys "Acme") := by
  decide

/-- C5 (amended): renormalizing the normalized name agrees with the first
normalization on `normalized_name` and on both classification flags; the
`raw` field of the second pass is the lowercasing of the first pass's
`raw`, so full dict equality holds only for queries without uppercase
letters. -/
theorem c5_normalize_idempotent_amended (q : PyStr) :
    (normalize_query ((normalize_query q).normalized_name)).normalized_name
        = (normalize_query q).normalized_name
    ∧ (normalize_query ((normalize_query q).normalized_name)).is_reg_number
        = (normalize_query q).is_reg_number
    ∧ (normalize_query ((normalize_query q).normalized_name)).is_vat
        = (normalize_query q).is_vat
    ∧ (normalize_query ((normalize_query q).normalized_name)).raw
        = pyLower (normalize_query q).raw := by
  have hu : pyStrip (pyLower (pyStrip q)) = pyLower (pyStrip q) := by
    rw [pyStrip_lower, pyStrip_idem]
  simp only [normalize_query]
  refine ⟨?_, ?_, ?_, ?_⟩
  · rw [hu, pyLower_idem]
  · rw [hu, removeSpaces_lower, pyIsDigit_lower]
  · simp only [hu, pyLower_length, pyLower_take, pyIsAlpha_lower, pyLower_drop,
      removeSpaces_lower, pyIsDigit_lower]
  · rw [hu]

/-! ## Claim C6 — the registration-number flag -/

/-- Modelled from the spec claim's words, for comparison with the code:
true iff the string with internal (and surrounding) whitespace stripped
is non-empty and consists entirely of digits. -/
def spec_is_reg_number_whitespace (q : PyStr) : Bool :=
  pyIsDigit (q.filter (fun c => !(isSpaceNat c)))

/-- C6 counterexample: on the query containing an internal tab, the
whitespace-stripped string "1234" is non-empty and all digits, so the
claim predicts `isRegistrationNumber = true`; the code only removes the
space character U+0020, leaves the tab, and `isdigit` fails, so the flag
is false. -/
theorem c6_reg_number_flag_counterexample :
    spec_is_reg_number_whitespace (pys "12\t34") = true
    ∧ (normalize_query (pys "12\t34")).is_reg_number = false := by
  decide

/-- C6 (amended): `is_reg_number` is true iff the query, after stripping
surrounding whitespace and removing internal space characters (U+0020
only — tabs and other whitespace are kept and defeat the flag), is
non-empty and consists entirely of ASCII digits; in particular
"6875 0110" gets the flag and keeps normalized name "6875 0110". -/
theorem c6_reg_number_flag_amended :
    (∀ q : PyStr, (normalize_query q).is_reg_number = true ↔
        (removeSpaces (pyStrip q) ≠ []
          ∧ ∀ c ∈ removeSpaces (pyStrip q), isDigitNat c = true))
    ∧ (normalize_query (pys "6875 0110")).is_reg_number = true
    ∧ (normalize_query (pys "6875 0110")).normalized_name = pys "6875 0110" := by
  refine ⟨?_, by decide, by decide⟩
  intro q
  simp [normalize_query, pyIsDigit, List.all_eq_true, List.isEmpty_iff]

/-! ## Claim C7 — in-process cache round-trip -/

/-- C7: after `cache_set(k, v, ttl)` with a positive ttl, `cache_get(k)`
returns `v` at every instant of the simulated clock before `now + ttl`
(in particular immediately), and returns `None` from `now + ttl` on
(lazy expiry checked on read). -/
theorem c7_cache_roundtrip {α : Type} (store : Cache α) (k : PyStr) (v : α)
    (ttl now : Nat) (httl : 0 < ttl) :
    (∀ t, t < now + ttl → cache_get (cache_set store k v ttl now) k t = some v)
    ∧ (∀ t, now + ttl ≤ t → cache_get (cache_set store k v ttl now) k t = none) := by
  constructor <;> intro t ht <;> simp [cache_get, cache_set] <;> omega

/-- Witness for C7 at a concrete input: set at time 100 with ttl 60, hit
at time 100, miss at time 160. -/
theorem c7_cache_roundtrip_witness :
    cache_get (cache_set (emptyCache (α := Nat)) (pys "k") 42 60 100) (pys "k") 100 = some 42
    ∧ cache_get (cache_set (emptyCache (α := Nat)) (pys "k") 42 60 100) (pys "k") 160 = none :=
  ⟨(c7_cache_roundtrip emptyCache (pys "k") 42 60 100 (by decide)).1 100 (by decide),
   (c7_cache_roundtrip emptyCache (pys "k") 42 60 100 (by decide)).2 160 (by decide)⟩

/-! ## Claim C9 — the two classification flags are mutually exclusive -/

/-- C9: no query string gets both `is_reg_number` and `is_vat`: the VAT
test requires the first two characters to be alphabetic, and an
alphabetic character survives space removal and is not a digit, which
defeats the all-digits registration test. -/
theorem c9_flags_mutually_exclusive (q : PyStr) :
    (normalize_query q).is_reg_number = false ∨ (normalize_query q).is_vat = false := by
  by_cases hv : (normalize_query q).is_vat = true
  · left
    simp only [normalize_query] at hv ⊢
    rcases hu : pyStrip q with _ | ⟨c, rest⟩
    · rw [hu] at hv
      simp at hv
    · rw [hu] at hv
      simp only [Bool.and_eq_true, decide_eq_true_eq] at hv
      obtain ⟨⟨hlen, halpha⟩, hdig⟩ := hv
      have hc : isAlphaNat c = true := by
        have h2 : (c :: rest).take 2 = c :: rest.take 1 := rfl
        unfold pyIsAlpha at halpha
        rw [h2] at halpha
        simp only [Bool.and_eq_true, List.all_cons] at halpha
        exact halpha.2.1
      have hcrange : (65 ≤ c ∧ c ≤ 90) ∨ (97 ≤ c ∧ c ≤ 122) := by
        unfold isAlphaNat at hc
        exact of_decide_eq_true hc
      unfold removeSpaces
      rw [List.filter_cons_of_pos (by simp; omega)]
      unfold pyIsDigit
      have hcd : isDigitNat c = false := by
        unfold isDigitNat
        simp only [decide_eq_false_iff_not]
        omega
      simp [hcd]
  · right
    simpa using hv

/-! ## Lemmas about the audit mapping and the sanctions step -/

lemma alookup_rcSet_self (l : List (PyStr × RawCall)) (k : PyStr) (v : RawCall) :
    alookup (rcSet l k v) k = some v := by
  induction l with
  | nil => simp [rcSet, alookup]
  | cons kv rest ih =>
    obtain ⟨kk, w⟩ := kv
    by_cases h : kk = k
    · simp [rcSet, h, alookup]
    · simp [rcSet, h, alookup, ih]

lemma alookup_rcSet_other (l : List (PyStr × RawCall)) (k key : PyStr) (v : RawCall)
    (h : key ≠ k) : alookup (rcSet l k v) key = alookup l key := by
  induction l with
  | nil =>
    simp [rcSet, alookup]
    exact fun hh => h hh.symm
  | cons kv rest ih =>
    obtain ⟨kk, w⟩ := kv
    by_cases hk : kk = k
    · subst hk
      simp [rcSet, alookup, h, Ne.symm h]
    · simp [rcSet, hk, alookup, ih]

/-- The sanctions step only ever appends to `audit["sources"]`. -/
lemma sanctions_step_sources (sanct : Except PyStr PyVal) (ss : SanctionsSection)
    (a : Audit) : ∃ extra, (sanctions_step sanct ss a).2.sources = a.sources ++ extra := by
  unfold sanctions_step sanctFail
  rcases sanct with e | osr
  · exact ⟨[], by simp⟩
  · simp only []
    split
    · exact ⟨[], by simp⟩
    · split
      · exact ⟨[], by simp⟩
      · split
        · exact ⟨[], by simp⟩
        · split
          · exact ⟨[pys "opensanctions"], rfl⟩
          · exact ⟨[], by simp⟩

/-- The sanctions step writes only the `opensanctions` and
`opensanctions_error` entries of `audit["raw_calls"]`. -/
lemma sanctions_step_raw_calls_other (sanct : Except PyStr PyVal) (ss : SanctionsSection)
    (a : Audit) (key : PyStr) (h1 : key ≠ pys "opensanctions_error")
    (h2 : key ≠ pys "opensanctions") :
    alookup (sanctions_step sanct ss a).2.raw_calls key = alookup a.raw_calls key := by
  unfold sanctions_step sanctFail
  rcases sanct with e | osr
  · exact alookup_rcSet_other _ _ _ _ h1
  · simp only []
    split
    · exact alookup_rcSet_other _ _ _ _ h1
    · split
      · exact alookup_rcSet_other _ _ _ _ h1
      · split
        · exact alookup_rcSet_other _ _ _ _ h1
        · split
          · exact alookup_rcSet_other _ _ _ _ h2
          · exact alookup_rcSet_other _ _ _ _ h2

/-- The scoring input always carries a `company` dict with nine entries
and no `name` key, so the scoring stub deterministically lands in the
odd-length branch with score 0.05. -/
lemma compute_risk_scoringInput (c : Company) (ss : SanctionsSection) :
    compute_risk (scoringInput c ss)
      = .ok ⟨1/20, [pys "name-length-odd-stub"], [(pys "stub", .bool true)]⟩ := by
  unfold compute_risk
  simp only [show truthy (selectRiskName (scoringInput c ss)) = true from rfl,
    show pyLenE (selectRiskName (scoringInput c ss)) = .ok 9 from rfl]
  norm_num

/-! ## Claim C3 — sanctions adapter failure degrades, never fails -/

/-- Result of an orchestrator call on the empty cache at simulated time
0, projected to the returned profile (used to state concrete runs). -/
def runProfile (regBasis regSearch sanct : Except PyStr PyVal) (params : OrchParams) :
    Option OrchResult :=
  match orchestrator_get_company_profile regBasis regSearch sanct emptyCache 0
      (pys "t") params with
  | .ok (r, _) => some r
  | .error _ => none

/-- C3 counterexample: on a concrete request whose sanctions adapter
raises `Timeout`, the request still succeeds but the audit key the claim
names, `sanctions_error`, is absent from `raw_calls` (the code writes
`opensanctions_error`). -/
theorem c3_sanctions_error_key_counterexample :
    (runProfile (.ok .none) (.ok (.dict [(pys "data", .list [])]))
        (.error (pys "Timeout")) ⟨pys "NL", pys "acme", false, false⟩).map
        (fun r => alookup r.audit.raw_calls (pys "sanctions_error")) = some none
    ∧ (runProfile (.ok .none) (.ok (.dict [(pys "data", .list [])]))
        (.error (pys "Timeout")) ⟨pys "NL", pys "acme", false, false⟩).map
        (fun r => (alookup r.audit.raw_calls (pys "opensanctions_error"),
                   r.sanctions.hits_count, r.sanctions.matches_list.isEmpty))
      = some (some (.err (pys "Timeout")), 0, true) := by
  decide

/-- C3 (amended): whatever the registry adapters and the rest of the
request do, if the sanctions adapter raises then the orchestrator still
returns a result whose sanctions section has `hits_count = 0` and an
empty match list, and `audit["raw_calls"]` maps `opensanctions_error`
(not `sanctions_error`) to the exception text; no adapter failure fails
the overall request. -/
theorem c3_sanctions_failure_amended (params : OrchParams)
    (regBasis regSearch : Except PyStr PyVal) (msg : PyStr) (now : Nat) (nowIso : PyStr) :
    ∃ r cs, orchestrator_get_company_profile regBasis regSearch (.error msg)
        emptyCache now nowIso params = .ok (r, cs)
      ∧ r.sanctions.hits_count = 0 ∧ r.sanctions.matches_list = []
      ∧ alookup r.audit.raw_calls (pys "opensanctions_error") = some (.err msg) := by
  simp only [orchestrator_get_company_profile, cache_get, emptyCache]
  rw [compute_risk_scoringInput]
  exact ⟨_, _, rfl, rfl, rfl, alookup_rcSet_self _ _ _⟩

/-! ## Claim C4 — ambiguous registry search promotes nothing -/

/-- When the free-text path runs (not the premium registration-number
path) and the search returns a `data` list with zero or several hits, the
registry block leaves the profile untouched and only records the count. -/
lemma registry_step_search_ambiguous (norm : NormalizedQuery) (premium : Bool)
    (regBasis : Except PyStr PyVal) (hits : List PyVal)
    (c : Company) (bc : BasicChecks) (a : Audit)
    (hfree : (norm.is_reg_number && premium) = false) (hlen : hits.length ≠ 1) :
    registry_step (pys "NL") norm premium regBasis
        (.ok (.dict [(pys "data", .list hits)])) c bc a
      = (c, bc,
          { sources := a.sources ++ [pys "kvk:search:multiple_or_none:" ++ natToStr hits.length]
            raw_calls := rcSet a.raw_calls (pys "kvk_search")
              (.result_count (some hits.length)) }) := by
  unfold registry_step
  rw [hfree]
  rcases hits with _ | ⟨h0, _ | ⟨h1, hrest⟩⟩
  · rfl
  · exact absurd rfl hlen
  · rfl

lemma sanctions_step_mem_sources (sanct : Except PyStr PyVal) (ss : SanctionsSection)
    (a : Audit) (x : PyStr) (hx : x ∈ a.sources) :
    x ∈ (sanctions_step sanct ss a).2.sources := by
  obtain ⟨extra, he⟩ := sanctions_step_sources sanct ss a
  rw [he]
  exact List.mem_append_left _ hx

/-- C4: for any free-text NL query (the premium registration-number path
is off) whose registry search returns a hit list of length other than one
— zero or several candidates — the returned profile's registration number
stays `None`, `basic_checks["reg_verified"]` stays false, the audit
sources record the ambiguity count, and `raw_calls["kvk_search"]` records
the result count; no candidate is promoted into the profile, regardless
of the sanctions adapter's behaviour. -/
theorem c4_ambiguous_search_no_promotion (query : PyStr) (premium : Bool)
    (hits : List PyVal) (regBasis sanct : Except PyStr PyVal) (now : Nat) (nowIso : PyStr)
    (hfree : ((normalize_query (pyStrip query)).is_reg_number && premium) = false)
    (hlen : hits.length ≠ 1) :
    ∃ r cs, orchestrator_get_company_profile regBasis
        (.ok (.dict [(pys "data", .list hits)])) sanct emptyCache now nowIso
        ⟨pys "NL", query, premium, false⟩ = .ok (r, cs)
      ∧ r.company.registration_number = PyVal.none
      ∧ r.basic_checks.reg_verified = false
      ∧ (pys "kvk:search:multiple_or_none:" ++ natToStr hits.length) ∈ r.audit.sources
      ∧ alookup r.audit.raw_calls (pys "kvk_search")
          = some (.result_count (some hits.length)) := by
  simp only [orchestrator_get_company_profile, cache_get, emptyCache]
  rw [show pyUpper (pys "NL") = pys "NL" from rfl]
  rw [registry_step_search_ambiguous _ premium regBasis hits _ _ _ hfree hlen]
  rw [compute_risk_scoringInput]
  refine ⟨_, _, rfl, rfl, rfl, ?_, ?_⟩
  · exact sanctions_step_mem_sources _ _ _ _ (by simp)
  · rw [sanctions_step_raw_calls_other sanct _ _ (pys "kvk_search") (by decide) (by decide)]
    exact alookup_rcSet_self _ _ _

/-- Witness for C4 at a concrete input: two candidates for a free-text
query on the basic tier; the ambiguity count 2 is recorded. -/
theorem c4_ambiguous_search_witness :
    ((normalize_query (pyStrip (pys "acme corp"))).is_reg_number && false) = false
    ∧ ([PyVal.dict [], PyVal.dict []] : List PyVal).length ≠ 1
    ∧ ∃ r cs, orchestrator_get_company_profile (.ok .none)
        (.ok (.dict [(pys "data", .list [PyVal.dict [], PyVal.dict []])]))
        (.ok (.dict [(pys "matches", .list [])])) emptyCache 0 (pys "t")
        ⟨pys "NL", pys "acme corp", false, false⟩ = .ok (r, cs)
      ∧ r.company.registration_number = PyVal.none
      ∧ r.basic_checks.reg_verified = false
      ∧ (pys "kvk:search:multiple_or_none:" ++ natToStr 2) ∈ r.audit.sources
      ∧ alookup r.audit.raw_calls (pys "kvk_search") = some (.result_count (some 2)) :=
  ⟨by decide, by decide,
    c4_ambiguous_search_no_promotion (pys "acme corp") false [PyVal.dict [], PyVal.dict []]
      (.ok .none) (.ok (.dict [(pys "matches", .list [])])) 0 (pys "t")
      (by decide) (by decide)⟩

/-! ## Claim C10 — the scoring stub on arbitrary dicts -/

/-- Value kinds `len()` accepts (`compute_risk` applies `len` to the
selected name). -/
def hasLen : PyVal → Bool
  | .str _ => true
  | .list _ => true
  | .dict _ => true
  | _ => false

/-- C10 counterexample: `compute_risk` does not return without raising on
every input dict — on `{"name": 5}` the selected name is a truthy int and
`len(name)` raises `TypeError`. -/
theorem c10_compute_risk_counterexample :
    compute_risk_raises [(pys "name", PyVal.int 5)] = true := by
  decide

/-- C10 helper: whenever the stub does return, the result has one of the
three stub scores, a non-empty reasons list, and provenance
`{"stub": True}`. -/
lemma compute_risk_ok_shape (profile : List (PyStr × PyVal)) (r : RiskOut)
    (h : compute_risk profile = .ok r) :
    (r.score = 0 ∨ r.score = 1/20 ∨ r.score = 1/5)
    ∧ r.reasons ≠ [] ∧ r.provenance = [(pys "stub", PyVal.bool true)] := by
  simp only [compute_risk] at h
  split at h
  · split at h
    · exact absurd h (by simp)
    · split at h
      · injection h with h2
        subst h2
        exact ⟨Or.inr (Or.inr rfl), by simp, rfl⟩
      · injection h with h2
        subst h2
        exact ⟨Or.inr (Or.inl rfl), by simp, rfl⟩
  · injection h with h2
    subst h2
    exact ⟨Or.inl rfl, by simp, rfl⟩

/-- C10 (amended): for every input dict whose selected name (first truthy
of `name`, `company`, else the empty string) is either falsy or a sized
value (string, list or dict), `compute_risk` returns without raising,
with a score that is exactly one of 0.0, 0.05, 0.2, a non-empty reasons
list, and provenance `{"stub": True}`; determinism is inherent (the stub
is a pure function of its argument).  A dict whose selected name is a
truthy unsized value — e.g. `{"name": 5}` — instead raises `TypeError`. -/
theorem c10_compute_risk_total_amended (profile : List (PyStr × PyVal))
    (h : truthy (selectRiskName profile) = false ∨ hasLen (selectRiskName profile) = true) :
    ∃ r, compute_risk profile = .ok r
      ∧ (r.score = 0 ∨ r.score = 1/20 ∨ r.score = 1/5)
      ∧ r.reasons ≠ [] ∧ r.provenance = [(pys "stub", PyVal.bool true)] := by
  have hok : ∃ r, compute_risk profile = .ok r := by
    simp only [compute_risk]
    split
    case isTrue htr =>
      rcases h with h | h
      · exact absurd htr (by simp [h])
      · split
        case h_1 e heq =>
          exfalso
          rcases hv : selectRiskName profile with _ | b | n | q | s | xs | kvs <;>
            rw [hv] at h heq <;> simp [hasLen] at h <;> simp [pyLenE] at heq
        case h_2 l heq =>
          split
          · exact ⟨_, rfl⟩
          · exact ⟨_, rfl⟩
    case isFalse htr => exact ⟨_, rfl⟩
  obtain ⟨r, hr⟩ := hok
  exact ⟨r, hr, (compute_risk_ok_shape profile r hr).1,
    (compute_risk_ok_shape profile r hr).2.1, (compute_risk_ok_shape profile r hr).2.2⟩

/-- Witness for C10 (amended) at the empty dict. -/
theorem c10_compute_risk_witness :
    (truthy (selectRiskName []) = false ∨ hasLen (selectRiskName []) = true)
    ∧ ∃ r, compute_risk [] = .ok r
      ∧ (r.score = 0 ∨ r.score = 1/20 ∨ r.score = 1/5)
      ∧ r.reasons ≠ [] ∧ r.provenance = [(pys "stub", PyVal.bool true)] :=
  ⟨Or.inl (by decide), c10_compute_risk_total_amended [] (Or.inl (by decide))⟩

/-! ## Claim C8 — PII redaction -/

lemma emailMatch_pos (l : PyStr) (n : Nat) (h : emailMatch l = some n) : 0 < n := by
  simp only [emailMatch] at h
  repeat' split at h
  all_goals first
    | (simp only [Option.some.injEq] at h; omega)
    | exact absurd h (by simp)

lemma phoneMatch_pos (l : PyStr) (n : Nat) (h : phoneMatch l = some n) : 0 < n := by
  simp only [phoneMatch] at h
  repeat' split at h
  all_goals first
    | (simp only [Option.some.injEq] at h; omega)
    | exact absurd h (by simp)

lemma registryMatch_pos (prev : Option Nat) (l : PyStr) (n : Nat)
    (h : registryMatch prev l = some n) : 0 < n := by
  simp only [registryMatch] at h
  repeat' split at h
  all_goals first
    | (simp only [Option.some.injEq] at h; omega)
    | exact absurd h (by simp)

/-- Adequacy of the scanning substitution: given a matcher that never
matches the empty string, one pass realises the `Replaces` relation —
every match is replaced by the placeholder and every other character
kept. -/
lemma subst_replaces (M : Option Nat → PyStr → Option Nat)
    (hM : ∀ prev l n, M prev l = some n → 0 < n) :
    ∀ fuel l prev, l.length ≤ fuel → Replaces M prev l (subst M fuel prev l) := by
  intro fuel
  induction fuel with
  | zero =>
    intro l prev h
    have hl : l = [] := List.length_eq_zero.mp (Nat.le_zero.mp h)
    subst hl
    exact Replaces.done prev
  | succ fuel ih =>
    intro l prev h
    cases l with
    | nil => exact Replaces.done prev
    | cons c rest =>
      cases hm : M prev (c :: rest) with
      | none =>
        have hr := ih rest (some c) (by simp at h; omega)
        simp only [subst, hm]
        exact Replaces.keep prev c rest _ hm hr
      | some n =>
        have hn := hM prev (c :: rest) n hm
        have hlen2 : (List.drop n (c :: rest)).length ≤ fuel := by
          have hc : (c :: rest).length = rest.length + 1 := rfl
          rw [List.length_drop, hc]
          simp at h
          omega
        have hr := ih (List.drop n (c :: rest)) ((List.take n (c :: rest)).getLast?) hlen2
        simp only [subst, hm]
        exact Replaces.redact prev c rest n _ hm hn hr

/-- C8: `redact_pii` performs the three pattern passes in order, each
replacing every (leftmost, non-overlapping) email-like, phone-like, or
registry-id-like match with the fixed placeholder `[REDACTED]` while
keeping all other characters unchanged, and on the spec's example both
the email and the phone substrings are replaced, the surrounding text
kept intact. -/
theorem c8_redact_pii :
    redact_pii (pys "call John at john@x.com or +31 6 1234 5678")
      = pys "call John at [REDACTED] or [REDACTED]"
    ∧ ∀ text : PyStr, ∃ t1 t2,
        Replaces (fun _ s => emailMatch s) none text t1
        ∧ Replaces (fun _ s => phoneMatch s) none t1 t2
        ∧ Replaces registryMatch none t2 (redact_pii text) := by
  constructor
  · decide
  · intro text
    by_cases he : text.isEmpty = true
    · have ht : text = [] := by simpa [List.isEmpty_iff] using he
      subst ht
      exact ⟨[], [], Replaces.done none, Replaces.done none, Replaces.done none⟩
    · have hr : redact_pii text
          = subPass registryMatch
              (subPass (fun _ s => phoneMatch s) (subPass (fun _ s => emailMatch s) text)) := by
        simp [redact_pii, he]
      refine ⟨subPass (fun _ s => emailMatch s) text,
        subPass (fun _ s => phoneMatch s) (subPass (fun _ s => emailMatch s) text),
        ?_, ?_, ?_⟩
      · exact subst_replaces _ (fun _ l n h => emailMatch_pos l n h) _ text none le_rfl
      · exact subst_replaces _ (fun _ l n h => phoneMatch_pos l n h) _ _ none le_rfl
      · rw [hr]
        exact subst_replaces _ registryMatch_pos _ _ none le_rfl

end ComplianceCopilot
